import Mathlib

/-!
Shallow embedding of the core of the `speard-arbitrage` trading engine
(`backend/arbbot`): spread statistics and signal generation
(`strategy/spread_engine.py`), position ledger and rebalance planner
(`strategy/position_manager.py`), execution engine with its live-order gate
(`strategy/execution_engine.py`), token-bucket rate limiter
(`risk/rate_limiter.py`), health guard (`risk/health_guard.py`) and the
universe scanner's per-pair row construction (`market/scanner.py`).

Python `Decimal` quantities are modelled as `ℚ`; wall-clock instants as `ℚ`
seconds.  Awaited external calls (venue adapters, the limiter seen from the
execution engine) are modelled as explicit oracles, and stateful methods as
pure functions threading their state.
-/

namespace Arbbot

/-- Venues supported by the bot (`models.ExchangeName`). -/
inductive ExchangeName where
  | PARADEX
  | GRVT
deriving DecidableEq, Repr

/-- Order side (`models.TradeSide`). -/
inductive TradeSide where
  | BUY
  | SELL
deriving DecidableEq, Repr

/-- Strategy action (`models.SignalAction`). -/
inductive SignalAction where
  | HOLD
  | OPEN
  | CLOSE
  | REBALANCE
deriving DecidableEq, Repr

/-- Arbitrage direction (`models.ArbitrageDirection`). -/
inductive ArbitrageDirection where
  | LONG_PARA_SHORT_GRVT
  | LONG_GRVT_SHORT_PARA
deriving DecidableEq, Repr

/-- Strategy mode (`models.StrategyMode`). -/
inductive StrategyMode where
  | NORMAL_ARB
  | ZERO_WEAR
deriving DecidableEq, Repr

/-- Best bid/ask snapshot (`models.BBO`); timestamps are irrelevant to the
claims and omitted. -/
structure BBO where
  bid : ℚ
  ask : ℚ
deriving DecidableEq, Repr

/-- Mid price, `BBO.mid`. -/
def BBO.mid (b : BBO) : ℚ := (b.bid + b.ask) / 2

/-- Validity predicate, `BBO.valid`. -/
def BBO.valid (b : BBO) : Prop := b.bid > 0 ∧ b.ask > 0 ∧ b.bid < b.ask

instance (b : BBO) : Decidable b.valid := by
  unfold BBO.valid; infer_instance

/-- Spread statistics (`models.SpreadMetrics`).  All ten fields below are
required by the dataclass — only `timestamp_ms` (omitted here) has a
default. -/
structure SpreadMetrics where
  symbol : String
  edge_para_to_grvt_price : ℚ
  edge_grvt_to_para_price : ℚ
  edge_para_to_grvt_bps : ℚ
  edge_grvt_to_para_bps : ℚ
  signed_edge_bps : ℚ
  signed_edge_price : ℚ
  ma : ℚ
  std : ℚ
  zscore : ℚ
deriving DecidableEq, Repr

/-- Strategy signal (`models.SpreadSignal`). -/
structure SpreadSignal where
  action : SignalAction
  direction : Option ArbitrageDirection
  edge_bps : ℚ
  zscore : ℚ
  threshold_bps : ℚ
  reason : String
  batches : List ℚ
deriving DecidableEq, Repr

/-- The strategy-configuration fields consumed by the components embedded
here (`config.StrategyConfig`). -/
structure StrategyConfig where
  ma_window : ℕ
  std_window : ℕ
  min_samples : ℕ
  z_entry : ℚ
  z_exit : ℚ
  z_zero_entry : ℚ
  z_zero_exit : ℚ
  min_edge_bps : ℚ
  base_order_qty : ℚ
  max_batch_qty : ℚ
  max_position : ℚ
deriving DecidableEq, Repr

/-! ## Spread engine (`strategy/spread_engine.py`) -/

/-- `spread_engine._to_bps`. -/
def toBps (value base : ℚ) : ℚ :=
  if base ≤ 0 then 0 else value / base * 10000

/-- Mean of a list (Python `statistics.mean`; the engine never calls it on an
empty slice on the paths the claims touch, and we default that case to 0). -/
def listMean (l : List ℚ) : ℚ :=
  if l.isEmpty then 0 else l.sum / l.length

/-- Population variance of a list (`statistics.pstdev` squared); empty case
defaulted to 0. -/
def listPVariance (l : List ℚ) : ℚ :=
  if l.isEmpty then 0
  else (l.map (fun x => (x - listMean l) ^ 2)).sum / l.length

/-- Python slice `l[-n:]`: the last `n` elements, the whole list when
`n = 0`. -/
def takeLastPy (n : ℕ) (l : List ℚ) : List ℚ :=
  if n = 0 then l else l.drop (l.length - n)

/-- Appending to a `collections.deque` with `maxlen = m`: keep the last `m`
elements. -/
def pushMaxlen (m : ℕ) (ring : List ℚ) (x : ℚ) : List ℚ :=
  let l := ring ++ [x]
  l.drop (l.length - m)

/-- Edge of selling the Paradex ask against the GRVT bid, in bps
(`compute_metrics`, lines 38-43 of `spread_engine.py`). -/
def edgeParaToGrvtBps (paradex grvt : BBO) : ℚ :=
  toBps (grvt.bid - paradex.ask) ((paradex.mid + grvt.mid) / 2)

/-- Edge of selling the GRVT ask against the Paradex bid, in bps. -/
def edgeGrvtToParaBps (paradex grvt : BBO) : ℚ :=
  toBps (paradex.bid - grvt.ask) ((paradex.mid + grvt.mid) / 2)

/-- The signed edge selected by `compute_metrics` (line 45 of
`spread_engine.py`). -/
def signedEdgeBps (paradex grvt : BBO) : ℚ :=
  let e1 := edgeParaToGrvtBps paradex grvt
  let e2 := edgeGrvtToParaBps paradex grvt
  if e1 ≥ e2 then e1 else -e2

/-- The local statistics `compute_metrics` computes (lines 38-60 of
`spread_engine.py`) before it attempts to build the `SpreadMetrics`
record. -/
structure SpreadStats where
  signed_edge : ℚ
  ma_value : ℚ
  std_value : ℚ
  zscore : ℚ
deriving DecidableEq, Repr

/-- The statistics locals of `SpreadEngine.compute_metrics` for one symbol,
with the per-symbol sample ring threaded explicitly (the line-47 `append`
gives the returned ring) and the (float) square root of `pstdev` supplied as
an oracle `sqrtQ`. -/
def computeMetricsStats (cfg : StrategyConfig) (sqrtQ : ℚ → ℚ)
    (ring : List ℚ) (paradex grvt : BBO) : SpreadStats × List ℚ :=
  let signed_edge := signedEdgeBps paradex grvt
  let samples := pushMaxlen (max cfg.ma_window cfg.std_window * 2) ring signed_edge
  let ma_value := if samples.length ≥ cfg.min_samples
    then listMean (takeLastPy cfg.ma_window samples) else 0
  let std_value := if samples.length ≥ cfg.min_samples
    then sqrtQ (listPVariance (takeLastPy cfg.std_window samples)) else 0
  let zscore := if std_value > 0 then (signed_edge - ma_value) / std_value else 0
  (⟨signed_edge, ma_value, std_value, zscore⟩, samples)

/-- The required fields a `SpreadMetrics(...)` call leaves unset, given which
keyword arguments it passes (`none` = keyword absent).  A Python dataclass
raises `TypeError` naming exactly these when the list is non-empty. -/
def spreadMetricsMissing (symbol : Option String)
    (edge_para_to_grvt_price edge_grvt_to_para_price edge_para_to_grvt_bps
      edge_grvt_to_para_bps signed_edge_bps signed_edge_price ma std zscore :
      Option ℚ) : List String :=
  (if symbol.isNone then ["symbol"] else []) ++
  (if edge_para_to_grvt_price.isNone then ["edge_para_to_grvt_price"] else []) ++
  (if edge_grvt_to_para_price.isNone then ["edge_grvt_to_para_price"] else []) ++
  (if edge_para_to_grvt_bps.isNone then ["edge_para_to_grvt_bps"] else []) ++
  (if edge_grvt_to_para_bps.isNone then ["edge_grvt_to_para_bps"] else []) ++
  (if signed_edge_bps.isNone then ["signed_edge_bps"] else []) ++
  (if signed_edge_price.isNone then ["signed_edge_price"] else []) ++
  (if ma.isNone then ["ma"] else []) ++
  (if std.isNone then ["std"] else []) ++
  (if zscore.isNone then ["zscore"] else [])

/-- The `SpreadMetrics(...)` dataclass constructor applied to a keyword set:
it returns the record only when every required field was passed, and raises
`TypeError` (modelled as `Except.error` carrying the missing names)
otherwise. -/
def mkSpreadMetrics (symbol : Option String)
    (edge_para_to_grvt_price edge_grvt_to_para_price edge_para_to_grvt_bps
      edge_grvt_to_para_bps signed_edge_bps signed_edge_price ma std zscore :
      Option ℚ) : Except (List String) SpreadMetrics :=
  match symbol, edge_para_to_grvt_price, edge_grvt_to_para_price,
    edge_para_to_grvt_bps, edge_grvt_to_para_bps, signed_edge_bps,
    signed_edge_price, ma, std, zscore with
  | some s, some pp, some gp, some pb, some gb, some sb, some sp, some m,
      some sd, some z => .ok ⟨s, pp, gp, pb, gb, sb, sp, m, sd, z⟩
  | s?, pp?, gp?, pb?, gb?, sb?, sp?, m?, sd?, z? =>
    .error (spreadMetricsMissing s? pp? gp? pb? gb? sb? sp? m? sd? z?)

/-- `SpreadEngine.compute_metrics`: the statistics are computed and the
sample ring is already extended (line 47), but the final record construction
(lines 62-70) passes only seven of the ten required keywords — the three
price fields are absent, so the call raises `TypeError` instead of
returning. -/
def computeMetrics (cfg : StrategyConfig) (sqrtQ : ℚ → ℚ) (symbol : String)
    (ring : List ℚ) (paradex grvt : BBO) :
    Except (List String) SpreadMetrics × List ℚ :=
  (mkSpreadMetrics (some symbol) none none
      (some (edgeParaToGrvtBps paradex grvt))
      (some (edgeGrvtToParaBps paradex grvt))
      (some (computeMetricsStats cfg sqrtQ ring paradex grvt).1.signed_edge)
      none
      (some (computeMetricsStats cfg sqrtQ ring paradex grvt).1.ma_value)
      (some (computeMetricsStats cfg sqrtQ ring paradex grvt).1.std_value)
      (some (computeMetricsStats cfg sqrtQ ring paradex grvt).1.zscore),
    (computeMetricsStats cfg sqrtQ ring paradex grvt).2)

/-- `SpreadEngine._build_batches`. -/
def buildBatches (cfg : StrategyConfig) (zscore_abs : ℚ) (mode : StrategyMode) : List ℚ :=
  let count : ℕ := if zscore_abs < (23 : ℚ) / 10 then 1
    else if zscore_abs < 3 then 2 else 3
  let weights : List ℚ := match mode with
    | .ZERO_WEAR => [(6 : ℚ) / 10, (4 : ℚ) / 10, (2 : ℚ) / 10]
    | .NORMAL_ARB => [1, (7 : ℚ) / 10, (5 : ℚ) / 10]
  let batches := (weights.take count).filterMap (fun w =>
    let qty := min (cfg.base_order_qty * w) cfg.max_batch_qty
    if qty > 0 then some qty else none)
  if batches.isEmpty then [min cfg.base_order_qty cfg.max_batch_qty] else batches

/-- `SpreadEngine.generate_signal`. -/
def generateSignal (cfg : StrategyConfig) (metrics : SpreadMetrics)
    (mode : StrategyMode) : SpreadSignal :=
  let edge_abs := |metrics.signed_edge_bps|
  let z_entry := match mode with
    | .ZERO_WEAR => cfg.z_zero_entry
    | .NORMAL_ARB => cfg.z_entry
  let z_exit := match mode with
    | .ZERO_WEAR => cfg.z_zero_exit
    | .NORMAL_ARB => cfg.z_exit
  let min_edge := match mode with
    | .ZERO_WEAR => cfg.min_edge_bps * ((7 : ℚ) / 10)
    | .NORMAL_ARB => cfg.min_edge_bps
  let direction := if metrics.signed_edge_bps ≥ 0
    then ArbitrageDirection.LONG_PARA_SHORT_GRVT
    else ArbitrageDirection.LONG_GRVT_SHORT_PARA
  if edge_abs < min_edge then
    ⟨.HOLD, some direction, edge_abs, metrics.zscore, min_edge, "边际不足，不开仓", []⟩
  else if |metrics.zscore| ≥ z_entry then
    ⟨.OPEN, some direction, edge_abs, metrics.zscore, min_edge, "满足动态开仓条件",
      buildBatches cfg |metrics.zscore| mode⟩
  else if |metrics.zscore| ≤ z_exit then
    ⟨.CLOSE, some direction, edge_abs, metrics.zscore, min_edge, "均值回归，触发平仓",
      [cfg.base_order_qty]⟩
  else
    ⟨.HOLD, some direction, edge_abs, metrics.zscore, min_edge, "等待更优价差", []⟩

/-- The minimum-edge threshold effectively used by `generate_signal` in a
given mode. -/
def modeMinEdge (cfg : StrategyConfig) (mode : StrategyMode) : ℚ :=
  match mode with
  | .ZERO_WEAR => cfg.min_edge_bps * ((7 : ℚ) / 10)
  | .NORMAL_ARB => cfg.min_edge_bps

/-! ## Position ledger (`strategy/position_manager.py`) -/

/-- Dual-venue position state for one symbol (`models.PositionState`). -/
structure PositionState where
  paradex : ℚ := 0
  grvt : ℚ := 0
  target_net : ℚ := 0
  active_direction : Option ArbitrageDirection := none
deriving DecidableEq, Repr

/-- `PositionState.net_exposure`. -/
def PositionState.net_exposure (s : PositionState) : ℚ := s.paradex + s.grvt

/-- The signed position of one leg. -/
def PositionState.leg (s : PositionState) : ExchangeName → ℚ
  | .PARADEX => s.paradex
  | .GRVT => s.grvt

/-- The other venue. -/
def ExchangeName.other : ExchangeName → ExchangeName
  | .PARADEX => .GRVT
  | .GRVT => .PARADEX

/-- A trade fill (`models.TradeFill`; timestamp omitted). -/
structure TradeFill where
  exchange : ExchangeName
  symbol : String
  side : TradeSide
  quantity : ℚ
  price : ℚ
  order_id : String
  tag : String
deriving DecidableEq, Repr

/-- A rebalance instruction (`models.RebalanceOrder`). -/
structure RebalanceOrder where
  exchange : ExchangeName
  side : TradeSide
  quantity : ℚ
  symbol : String
deriving DecidableEq, Repr

/-- The `PositionManager`'s map from symbol to state.  `_ensure` makes the
Python dict behave as a total map defaulting to the zero `PositionState`,
which is how we model it. -/
abbrev Positions := String → PositionState

/-- `PositionManager.apply_fill`. -/
def applyFill (ps : Positions) (fill : TradeFill) : Positions :=
  fun sym =>
    if sym = fill.symbol then
      let state := ps fill.symbol
      let delta := if fill.side = TradeSide.BUY then fill.quantity else -fill.quantity
      match fill.exchange with
      | .PARADEX => { state with paradex := state.paradex + delta }
      | .GRVT => { state with grvt := state.grvt + delta }
    else ps sym

/-- `PositionManager.can_open`. -/
def pmCanOpen (ps : Positions) (symbol : String) (max_position : ℚ) : Prop :=
  |(ps symbol).paradex| ≤ max_position ∧ |(ps symbol).grvt| ≤ max_position

instance (ps : Positions) (symbol : String) (m : ℚ) :
    Decidable (pmCanOpen ps symbol m) := by
  unfold pmCanOpen; infer_instance

/-- `PositionManager.build_rebalance_orders` (the per-symbol core, acting on
the symbol's state). -/
def buildRebalanceOrders (state : PositionState) (tolerance base_qty : ℚ)
    (symbol : String) : List RebalanceOrder :=
  if |state.net_exposure| ≤ tolerance then []
  else if min |state.net_exposure| base_qty ≤ 0 then []
  else if state.net_exposure > 0 then
    if state.paradex ≥ state.grvt then
      [⟨ExchangeName.PARADEX, TradeSide.SELL, min |state.net_exposure| base_qty, symbol⟩]
    else
      [⟨ExchangeName.GRVT, TradeSide.SELL, min |state.net_exposure| base_qty, symbol⟩]
  else
    if state.paradex ≤ state.grvt then
      [⟨ExchangeName.PARADEX, TradeSide.BUY, min |state.net_exposure| base_qty, symbol⟩]
    else
      [⟨ExchangeName.GRVT, TradeSide.BUY, min |state.net_exposure| base_qty, symbol⟩]

/-- Applying a rebalance order to the symbol's state as a fill with the same
venue, side and quantity (what `execute_rebalance` does through
`_record_fill` when the order fully fills). -/
def applyRebalanceOrder (state : PositionState) (o : RebalanceOrder) : PositionState :=
  let delta := if o.side = TradeSide.BUY then o.quantity else -o.quantity
  match o.exchange with
  | .PARADEX => { state with paradex := state.paradex + delta }
  | .GRVT => { state with grvt := state.grvt + delta }

/-! ## Token-bucket rate limiter (`risk/rate_limiter.py`) -/

/-- Token-bucket state (`rate_limiter.TokenBucket`); tokens and clock values
are `ℚ`. -/
structure TokenBucket where
  rate_per_sec : ℚ
  capacity : ℚ
  tokens : ℚ
  last_refill_at : ℚ
deriving DecidableEq, Repr

/-- `TokenBucket.__init__` after the two positivity checks: a fresh bucket is
full. -/
def TokenBucket.init (rate capacity now : ℚ) : TokenBucket :=
  ⟨rate, capacity, capacity, now⟩

/-- `TokenBucket._refill_unlocked` at clock reading `now`
(`elapsed = max(0, now − last_refill)`; no-op when it is zero). -/
def TokenBucket.refill (b : TokenBucket) (now : ℚ) : TokenBucket :=
  if max 0 (now - b.last_refill_at) ≤ 0 then b
  else { b with
    tokens := min b.capacity (b.tokens + max 0 (now - b.last_refill_at) * b.rate_per_sec),
    last_refill_at := now }

/-- `TokenBucket.try_acquire` at clock reading `now`: returns whether the
debit succeeded, and the new bucket state. -/
def TokenBucket.tryAcquire (b : TokenBucket) (tokens now : ℚ) : Bool × TokenBucket :=
  if tokens ≤ 0 then (true, b)
  else if (b.refill now).tokens ≥ tokens then
    (true, { b.refill now with tokens := (b.refill now).tokens - tokens })
  else (false, b.refill now)

/-- One iteration of the wait loop inside `TokenBucket.acquire`: refill, and
either debit (`some true`), give up because the deadline would pass
(`some false`), or keep waiting (`none`; the Python then sleeps
`min(wait_seconds, 0.05)`).  The two clock reads of one Python iteration are
coalesced into the single reading `now`. -/
def TokenBucket.acquireStep (b : TokenBucket) (tokens now : ℚ)
    (deadline : Option ℚ) : Option Bool × TokenBucket :=
  if (b.refill now).tokens ≥ tokens then
    (some true, { b.refill now with tokens := (b.refill now).tokens - tokens })
  else
    match deadline with
    | some d =>
      if now + (tokens - (b.refill now).tokens) / b.rate_per_sec > d
      then (some false, b.refill now) else (none, b.refill now)
    | none => (none, b.refill now)

/-- Dispatch on one wait-loop iteration's outcome: a decided iteration stops
the loop, an undecided one continues with the refilled bucket. -/
def TokenBucket.acquireLoopAux (s : Option Bool × TokenBucket)
    (rec : TokenBucket → Option (Bool × TokenBucket) × TokenBucket) :
    Option (Bool × TokenBucket) × TokenBucket :=
  match s with
  | (some r, b2) => (some (r, b2), b2)
  | (none, b2) => rec b2

/-- The wait loop of `TokenBucket.acquire`, driven by the (finite, increasing)
list of clock readings at which the coroutine wakes up; `none` means the list
was exhausted while the call was still waiting. -/
def TokenBucket.acquireLoop (tokens : ℚ) (deadline : Option ℚ) :
    List ℚ → TokenBucket → Option (Bool × TokenBucket) × TokenBucket
  | [], b => (none, b)
  | now :: rest, b =>
    TokenBucket.acquireLoopAux (b.acquireStep tokens now deadline)
      (TokenBucket.acquireLoop tokens deadline rest)

/-- `TokenBucket.acquire`: the first clock reading `t0` fixes the deadline
(`t0 + timeout`), then the loop runs over the remaining readings.  Raising
`ValueError` when more tokens are requested than the capacity is modelled by
`Except.error`. -/
def TokenBucket.acquire (b : TokenBucket) (tokens : ℚ) (timeout : Option ℚ)
    (t0 : ℚ) (wakeups : List ℚ) :
    Except String (Option (Bool × TokenBucket) × TokenBucket) :=
  if tokens ≤ 0 then .ok (some (true, b), b)
  else if tokens > b.capacity then .error "请求令牌数不能超过桶容量"
  else .ok (b.acquireLoop tokens (timeout.map (fun x => t0 + x)) wakeups)

/-- A bucket is well-formed when its token count lies in `[0, capacity]`. -/
def TokenBucket.inRange (b : TokenBucket) : Prop :=
  0 ≤ b.tokens ∧ b.tokens ≤ b.capacity

/-- A sequence of just-in-time refills at the given clock readings — what any
number of non-debiting observations (`stats`, failed waits) do to the bucket
between a drain and a later read. -/
def TokenBucket.refillMany (times : List ℚ) (b : TokenBucket) : TokenBucket :=
  times.foldl TokenBucket.refill b

/-! ## Rate limiter registry (`rate_limiter.RateLimiter`) -/

/-- The `RateLimiter`'s `(exchange, scope) → bucket` dictionary. -/
abbrev Buckets := String × String → Option TokenBucket

/-- `RateLimiter.acquire`: a missing bucket means the call is allowed
immediately and the registry is untouched. -/
def limiterAcquire (m : Buckets) (exchange scope : String) (tokens : ℚ)
    (timeout : Option ℚ) (t0 : ℚ) (wakeups : List ℚ) :
    Except String (Option Bool × Buckets) :=
  match m (exchange, scope) with
  | none => .ok (some true, m)
  | some b =>
    match b.acquire tokens timeout t0 wakeups with
    | .error e => .error e
    | .ok (res, bFinal) =>
      .ok (res.map Prod.fst,
        fun k => if k = (exchange, scope) then some bFinal else m k)

/-- `RateLimiter.try_acquire`. -/
def limiterTryAcquire (m : Buckets) (exchange scope : String) (tokens now : ℚ) :
    Bool × Buckets :=
  match m (exchange, scope) with
  | none => (true, m)
  | some b =>
    let (r, bFinal) := b.tryAcquire tokens now
    (r, fun k => if k = (exchange, scope) then some bFinal else m k)

/-! ## Health guard (`risk/health_guard.py`) -/

/-- Per-venue health state (`health_guard.HealthItem`). -/
structure HealthItem where
  ok : Bool := false
  fail_count : ℕ := 0
  last_ok_ms : ℤ := 0
  last_check_ms : ℤ := 0
  message : String := ""
deriving DecidableEq, Repr

/-- The `HealthGuard`'s registered venues, as the association list backing its
`_items` dict. -/
structure HealthGuard where
  fail_threshold : ℕ
  cache_ms : ℤ
  items : List (String × HealthItem)
deriving DecidableEq, Repr

/-- `HealthGuard.update` at time `now` (ms): upsert the venue's item. -/
def HealthGuard.update (g : HealthGuard) (exchange : String) (ok : Bool)
    (message : String) (now : ℤ) : HealthGuard :=
  let upd := fun (item : HealthItem) =>
    { item with
      last_check_ms := now
      ok := ok
      message := message
      fail_count := if ok then 0 else item.fail_count + 1
      last_ok_ms := if ok then now else item.last_ok_ms }
  if (g.items.map Prod.fst).contains exchange then
    { g with items := g.items.map (fun p => if p.1 = exchange then (p.1, upd p.2) else p) }
  else
    { g with items := g.items ++ [(exchange, upd {})] }

/-- `HealthGuard.can_open`. -/
def HealthGuard.canOpen (g : HealthGuard) : Bool :=
  if g.items.isEmpty then false
  else g.items.all (fun p => decide (p.2.fail_count < g.fail_threshold) && p.2.ok)

/-! ## Execution engine (`strategy/execution_engine.py`)

The engine's awaited collaborators are modelled as oracles: `limiterAllow`
is the boolean outcome of `rate_limiter.acquire(exchange, "order",
timeout=0.8)` for a given request, and `placeOrder` is the adapter's
`place_order`.  Each operation returns its `ExecutionReport`, the list of
requests that actually reached an adapter (`place_order` calls), and the
updated position map. -/

/-- A unified order request (`models.OrderRequest`). -/
structure OrderRequest where
  exchange : ExchangeName
  symbol : String
  side : TradeSide
  quantity : ℚ
  order_type : String := "market"
  price : Option ℚ := none
  reduce_only : Bool := false
  post_only : Bool := false
  tag : String := ""
deriving DecidableEq, Repr

/-- A unified order acknowledgement (`models.OrderAck`; timestamp omitted). -/
structure OrderAck where
  success : Bool
  exchange : ExchangeName
  order_id : String
  side : TradeSide
  requested_quantity : ℚ
  filled_quantity : ℚ
  avg_price : Option ℚ := none
  message : String := ""
deriving DecidableEq, Repr

/-- An execution result report (`models.ExecutionReport`). -/
structure ExecutionReport where
  signal : SpreadSignal
  attempted_orders : ℕ
  success_orders : ℕ
  failed_orders : ℕ
  message : String
  order_ids : List String := []
deriving DecidableEq, Repr

/-- The engine's awaited collaborators. -/
structure ExecEnv where
  limiterAllow : OrderRequest → Bool
  placeOrder : OrderRequest → OrderAck

/-- `ExecutionEngine._order_blocked_report`. -/
def orderBlockedReport (signal : SpreadSignal) (message : String) : ExecutionReport :=
  ⟨signal, 0, 0, 0, message, []⟩

/-- `ExecutionEngine._submit`: the ack, plus the list (empty or singleton) of
requests that reached `place_order`. -/
def submit (env : ExecEnv) (req : OrderRequest) : OrderAck × List OrderRequest :=
  if ¬ env.limiterAllow req then
    (⟨false, req.exchange, "", req.side, req.quantity, 0, none, "触发限流"⟩, [])
  else
    let ack := env.placeOrder req
    let ack := if ack.success ∧ ack.filled_quantity ≤ 0 ∧ req.order_type = "market"
      then { ack with filled_quantity := req.quantity } else ack
    (ack, [req])

/-- Accumulator threading the counters, order ids, adapter calls and position
map through a run of orders. -/
structure RunAcc where
  attempted : ℕ := 0
  succeeded : ℕ := 0
  failed : ℕ := 0
  order_ids : List String := []
  placed : List OrderRequest := []
  positions : Positions

/-- The body of the loop in `ExecutionEngine.execute_rebalance`: submit one
request and, on success, record the fill (`_record_fill` → `apply_fill`;
the `on_fill` callback does not touch the state modelled here). -/
def execRebalanceOrder (env : ExecEnv) (symbol : String) (acc : RunAcc)
    (req : OrderRequest) : RunAcc :=
  let (ack, placed) := submit env req
  let acc := { acc with attempted := acc.attempted + 1, placed := acc.placed ++ placed }
  if ack.success ∧ ack.filled_quantity > 0 then
    { acc with
      succeeded := acc.succeeded + 1
      order_ids := acc.order_ids ++ [ack.order_id]
      positions := applyFill acc.positions
        ⟨ack.exchange, symbol, ack.side, ack.filled_quantity,
          ack.avg_price.getD 0, ack.order_id, "rebalance"⟩ }
  else { acc with failed := acc.failed + 1 }

/-- `ExecutionEngine.execute_rebalance`. -/
def executeRebalance (env : ExecEnv) (live_order_enabled : Bool) (ps : Positions)
    (symbol : String) (orders : List OrderRequest) :
    ExecutionReport × List OrderRequest × Positions :=
  let fake_signal : SpreadSignal :=
    ⟨.REBALANCE, none, 0, 0, 0, "仓位再平衡", orders.map (·.quantity)⟩
  if ¬ live_order_enabled then
    (orderBlockedReport fake_signal "真实下单已禁用，再平衡仅记录未执行", [], ps)
  else
    let acc := orders.foldl (execRebalanceOrder env symbol) { positions := ps }
    (⟨fake_signal, acc.attempted, acc.succeeded, acc.failed, "再平衡完成", acc.order_ids⟩,
      acc.placed, acc.positions)

/-- `ExecutionEngine.flatten_symbol`. -/
def flattenSymbol (env : ExecEnv) (live_order_enabled : Bool) (ps : Positions)
    (symbol : String) : ExecutionReport × List OrderRequest × Positions :=
  if ¬ live_order_enabled then
    let blocked_signal : SpreadSignal :=
      ⟨.REBALANCE, none, 0, 0, 0, "真实下单已禁用", []⟩
    (orderBlockedReport blocked_signal "真实下单已禁用，一键平仓未执行", [], ps)
  else
    let state := ps symbol
    let requests : List OrderRequest :=
      (if state.paradex > 0 then
        [⟨.PARADEX, symbol, .SELL, |state.paradex|, "market", none, true, false, "flatten"⟩]
      else if state.paradex < 0 then
        [⟨.PARADEX, symbol, .BUY, |state.paradex|, "market", none, true, false, "flatten"⟩]
      else []) ++
      (if state.grvt > 0 then
        [⟨.GRVT, symbol, .SELL, |state.grvt|, "market", none, true, false, "flatten"⟩]
      else if state.grvt < 0 then
        [⟨.GRVT, symbol, .BUY, |state.grvt|, "market", none, true, false, "flatten"⟩]
      else [])
    executeRebalance env live_order_enabled ps symbol requests

/-- `ExecutionEngine._resolve_sides`. -/
def resolveSides (direction : Option ArbitrageDirection) : TradeSide × TradeSide :=
  if direction = some ArbitrageDirection.LONG_GRVT_SHORT_PARA
  then (TradeSide.SELL, TradeSide.BUY)
  else (TradeSide.BUY, TradeSide.SELL)

/-- The body of the loop in `ExecutionEngine._open_batches`: one taker leg on
Paradex followed, if it filled, by a post-only hedge on GRVT. -/
def execOpenBatch (env : ExecEnv) (symbol : String)
    (paradex_taker_side hedge_side : TradeSide) (fallback_price : ℚ)
    (grvt_bid grvt_ask : ℚ) (acc : RunAcc) (qty : ℚ) : RunAcc :=
  let paradex_req : OrderRequest :=
    ⟨.PARADEX, symbol, paradex_taker_side, qty, "market", none, false, false, "open-taker"⟩
  let (paradex_ack, placed) := submit env paradex_req
  let acc := { acc with attempted := acc.attempted + 1, placed := acc.placed ++ placed }
  if ¬ paradex_ack.success ∨ paradex_ack.filled_quantity ≤ 0 then
    { acc with failed := acc.failed + 1 }
  else
    let acc := { acc with
      succeeded := acc.succeeded + 1
      order_ids := acc.order_ids ++ [paradex_ack.order_id]
      positions := applyFill acc.positions
        ⟨paradex_ack.exchange, symbol, paradex_ack.side, paradex_ack.filled_quantity,
          paradex_ack.avg_price.getD fallback_price, paradex_ack.order_id, "open-taker"⟩ }
    let hedge_qty := paradex_ack.filled_quantity
    let hedge_maker_price := if hedge_side = TradeSide.BUY then grvt_bid else grvt_ask
    let hedge_req : OrderRequest :=
      ⟨.GRVT, symbol, hedge_side, hedge_qty, "limit", some hedge_maker_price,
        false, true, "open-hedge"⟩
    let (hedge_ack, placedH) := submit env hedge_req
    let acc := { acc with attempted := acc.attempted + 1, placed := acc.placed ++ placedH }
    if ¬ hedge_ack.success ∨ hedge_ack.filled_quantity ≤ 0 then
      { acc with failed := acc.failed + 1 }
    else
      { acc with
        succeeded := acc.succeeded + 1
        order_ids := acc.order_ids ++ [hedge_ack.order_id]
        positions := applyFill acc.positions
          ⟨hedge_ack.exchange, symbol, hedge_ack.side, hedge_ack.filled_quantity,
            hedge_ack.avg_price.getD hedge_maker_price, hedge_ack.order_id, "open-hedge"⟩ }

/-- `ExecutionEngine._open_batches`. -/
def openBatches (env : ExecEnv) (ps : Positions) (symbol : String)
    (signal : SpreadSignal) (paradex_bid paradex_ask grvt_bid grvt_ask : ℚ) :
    ExecutionReport × List OrderRequest × Positions :=
  let (paradex_taker_side, hedge_side) := resolveSides signal.direction
  let fallback_price := if paradex_taker_side = TradeSide.BUY then paradex_ask else paradex_bid
  let acc := signal.batches.foldl
    (execOpenBatch env symbol paradex_taker_side hedge_side fallback_price grvt_bid grvt_ask)
    { positions := ps }
  (⟨signal, acc.attempted, acc.succeeded, acc.failed, "开仓执行完成", acc.order_ids⟩,
    acc.placed, acc.positions)

/-- `ExecutionEngine._close_position`. -/
def closePosition (env : ExecEnv) (live_order_enabled : Bool)
    (cfg : StrategyConfig) (ps : Positions) (symbol : String)
    (signal : SpreadSignal) : ExecutionReport × List OrderRequest × Positions :=
  let state := ps symbol
  let close_qty := if signal.batches.isEmpty then cfg.base_order_qty else signal.batches.sum
  let requests : List OrderRequest :=
    (if state.paradex > 0 then
      [⟨.PARADEX, symbol, .SELL, min |state.paradex| close_qty, "market", none, true, false, "close"⟩]
    else if state.paradex < 0 then
      [⟨.PARADEX, symbol, .BUY, min |state.paradex| close_qty, "market", none, true, false, "close"⟩]
    else []) ++
    (if state.grvt > 0 then
      [⟨.GRVT, symbol, .SELL, min |state.grvt| close_qty, "market", none, true, false, "close"⟩]
    else if state.grvt < 0 then
      [⟨.GRVT, symbol, .BUY, min |state.grvt| close_qty, "market", none, true, false, "close"⟩]
    else [])
  executeRebalance env live_order_enabled ps symbol requests

/-- `ExecutionEngine.execute_signal`. -/
def executeSignal (env : ExecEnv) (live_order_enabled : Bool)
    (cfg : StrategyConfig) (ps : Positions) (symbol : String)
    (signal : SpreadSignal) (paradex_bid paradex_ask grvt_bid grvt_ask : ℚ)
    (can_open : Bool) : ExecutionReport × List OrderRequest × Positions :=
  if (signal.action = SignalAction.OPEN ∨ signal.action = SignalAction.CLOSE)
      ∧ ¬ live_order_enabled then
    (orderBlockedReport signal "真实下单已禁用，仅执行行情监控", [], ps)
  else if signal.action = SignalAction.HOLD then
    (⟨signal, 0, 0, 0, signal.reason, []⟩, [], ps)
  else if signal.action = SignalAction.OPEN ∧ ¬ can_open then
    (⟨signal, 0, 0, 1, "风控禁止开仓", []⟩, [], ps)
  else if signal.action = SignalAction.OPEN ∧ ¬ pmCanOpen ps symbol cfg.max_position then
    (⟨signal, 0, 0, 1, "达到最大仓位限制", []⟩, [], ps)
  else if signal.action = SignalAction.OPEN then
    openBatches env ps symbol signal paradex_bid paradex_ask grvt_bid grvt_ask
  else if signal.action = SignalAction.CLOSE then
    closePosition env live_order_enabled cfg ps symbol signal
  else
    (⟨signal, 0, 0, 1, "未知信号动作", []⟩, [], ps)

/-! ## Universe scanner, per-pair row (`market/scanner.py`) -/

/-- `scanner._sanitize_leverage`: clamp to `[1, 200]`. -/
def sanitizeLeverage (raw : ℚ) : ℚ :=
  if raw < 1 then 1 else if raw > 200 then 200 else raw

/-- `NominalSpreadScanner._resolve_effective_leverage` on present, numeric
leverages (the `None` cases are checked by the caller, and the
`TypeError/ValueError` escape cannot fire on numeric input). -/
def resolveEffectiveLeverage (paradex_max_leverage grvt_max_leverage : ℚ) : ℚ :=
  min (sanitizeLeverage paradex_max_leverage) (sanitizeLeverage grvt_max_leverage)

/-- `DEFAULT_OFFICIAL_PARADEX_TAKER_FEE = Decimal("0.0002")`. -/
def officialParadexTakerFee : ℚ := 2 / 10000

/-- `DEFAULT_OFFICIAL_GRVT_MAKER_FEE = Decimal("0.0002")`. -/
def officialGrvtMakerFee : ℚ := 2 / 10000

/-- The inputs `_fetch_pair_row` consumes for one candidate pair.  Order-book
fetches are `Except` (an exception becomes the `{venue}_orderbook_error`
skip); the extracted top-of-book prices are `Option` (`_extract_*_top`).
The z-score and spread-speed statistics are read from the scanner's history
state and are surfaced here as oracle inputs, since they do not feed any
reject decision. -/
structure PairInput where
  symbol : String
  paradex_max_leverage : Option ℚ
  grvt_max_leverage : Option ℚ
  paradex_depth : Except Unit (Option ℚ × Option ℚ)
  grvt_depth : Except Unit (Option ℚ × Option ℚ)
  paradex_taker_fee : Option ℚ
  grvt_maker_fee : Option ℚ
  zscore : ℚ
  history_samples : ℕ
  spread_speed_pct_per_min : ℚ
  spread_volatility_pct : ℚ
  speed_samples : ℕ

/-- The numeric content of a ranked scanner row (string metadata such as
`fee_source` and `updated_at` omitted). -/
structure ScannerRow where
  symbol : String
  paradex_bid : ℚ
  paradex_ask : ℚ
  paradex_mid : ℚ
  grvt_bid : ℚ
  grvt_ask : ℚ
  grvt_mid : ℚ
  reference_mid : ℚ
  tradable_edge_price : ℚ
  tradable_edge_pct : ℚ
  tradable_edge_bps : ℚ
  direction : String
  paradex_max_leverage : ℚ
  grvt_max_leverage : ℚ
  effective_leverage : ℚ
  gross_nominal_spread : ℚ
  fee_cost_estimate : ℚ
  net_nominal_spread : ℚ
  paradex_fee_rate : ℚ
  grvt_fee_rate : ℚ
  zscore : ℚ
  history_samples : ℕ
  spread_speed_pct_per_min : ℚ
  spread_volatility_pct : ℚ
  speed_samples : ℕ

/-- `reference_mid = (paradex_mid + grvt_mid) / 2` of `_fetch_pair_row`. -/
def referenceMid (paradex_bid paradex_ask grvt_bid grvt_ask : ℚ) : ℚ :=
  ((paradex_bid + paradex_ask) / 2 + (grvt_bid + grvt_ask) / 2) / 2

/-- `tradable_edge_price = max(paradex_bid − grvt_bid, grvt_ask −
paradex_ask)` — Paradex taker leg against GRVT maker leg. -/
def tradableEdgePrice (paradex_bid paradex_ask grvt_bid grvt_ask : ℚ) : ℚ :=
  max (paradex_bid - grvt_bid) (grvt_ask - paradex_ask)

/-- `tradable_edge_bps` of `_fetch_pair_row` (0 when the reference mid is not
positive). -/
def tradableEdgeBps (paradex_bid paradex_ask grvt_bid grvt_ask : ℚ) : ℚ :=
  if referenceMid paradex_bid paradex_ask grvt_bid grvt_ask > 0
  then tradableEdgePrice paradex_bid paradex_ask grvt_bid grvt_ask
    / referenceMid paradex_bid paradex_ask grvt_bid grvt_ask * 10000
  else 0

/-- `net_nominal_spread = tradable_edge_price · leverage − reference_mid ·
leverage · total_fee_rate` of `_fetch_pair_row`. -/
def netNominalSpread (paradex_bid paradex_ask grvt_bid grvt_ask lev fee_total : ℚ) : ℚ :=
  tradableEdgePrice paradex_bid paradex_ask grvt_bid grvt_ask * lev
    - referenceMid paradex_bid paradex_ask grvt_bid grvt_ask * lev * fee_total

/-- The BBO-validation reject of `_fetch_pair_row`: any price non-positive or
either book crossed/empty-spread. -/
def invalidScannerBbo (paradex_bid paradex_ask grvt_bid grvt_ask : ℚ) : Prop :=
  paradex_bid ≤ 0 ∨ paradex_ask ≤ 0 ∨ grvt_bid ≤ 0 ∨ grvt_ask ≤ 0
    ∨ paradex_bid ≥ paradex_ask ∨ grvt_bid ≥ grvt_ask

instance (pb pa gb ga : ℚ) : Decidable (invalidScannerBbo pb pa gb ga) := by
  unfold invalidScannerBbo; infer_instance

/-- `NominalSpreadScanner._fetch_pair_row`: either a ranked row or a skip
reason.  The signed-edge history append and its derived z-score are scanner
state side effects with no influence on the accept/reject decisions; the
z-score and speed statistics enter the row through the oracle fields of
`PairInput`. -/
def fetchPairRow (inp : PairInput) : Except String ScannerRow :=
  match inp.paradex_max_leverage with
  | none => .error "paradex_leverage_missing"
  | some paradex_lev =>
  match inp.grvt_max_leverage with
  | none => .error "grvt_leverage_missing"
  | some grvt_lev =>
  if resolveEffectiveLeverage paradex_lev grvt_lev < 50
  then .error "effective_leverage_below_50x"
  else
  match inp.paradex_depth with
  | .error _ => .error "paradex_orderbook_error"
  | .ok (paradex_bid?, paradex_ask?) =>
  match inp.grvt_depth with
  | .error _ => .error "grvt_orderbook_error"
  | .ok (grvt_bid?, grvt_ask?) =>
  match paradex_bid?, paradex_ask?, grvt_bid?, grvt_ask? with
  | some paradex_bid, some paradex_ask, some grvt_bid, some grvt_ask =>
    if invalidScannerBbo paradex_bid paradex_ask grvt_bid grvt_ask then
      .error "invalid_bbo"
    else if tradableEdgePrice paradex_bid paradex_ask grvt_bid grvt_ask ≤ 0 then
      .error "edge_not_positive"
    else if netNominalSpread paradex_bid paradex_ask grvt_bid grvt_ask
        (resolveEffectiveLeverage paradex_lev grvt_lev)
        (inp.paradex_taker_fee.getD officialParadexTakerFee
          + inp.grvt_maker_fee.getD officialGrvtMakerFee) ≤ 0 then
      .error "net_spread_not_positive"
    else
      .ok ⟨inp.symbol, paradex_bid, paradex_ask, (paradex_bid + paradex_ask) / 2,
        grvt_bid, grvt_ask, (grvt_bid + grvt_ask) / 2,
        referenceMid paradex_bid paradex_ask grvt_bid grvt_ask,
        tradableEdgePrice paradex_bid paradex_ask grvt_bid grvt_ask,
        tradableEdgeBps paradex_bid paradex_ask grvt_bid grvt_ask / 100,
        tradableEdgeBps paradex_bid paradex_ask grvt_bid grvt_ask,
        (if tradableEdgePrice paradex_bid paradex_ask grvt_bid grvt_ask
            = paradex_bid - grvt_bid
         then "sell_paradex_taker_buy_grvt_maker"
         else "buy_paradex_taker_sell_grvt_maker"),
        paradex_lev, grvt_lev, resolveEffectiveLeverage paradex_lev grvt_lev,
        tradableEdgePrice paradex_bid paradex_ask grvt_bid grvt_ask
          * resolveEffectiveLeverage paradex_lev grvt_lev,
        referenceMid paradex_bid paradex_ask grvt_bid grvt_ask
          * resolveEffectiveLeverage paradex_lev grvt_lev
          * (inp.paradex_taker_fee.getD officialParadexTakerFee
            + inp.grvt_maker_fee.getD officialGrvtMakerFee),
        netNominalSpread paradex_bid paradex_ask grvt_bid grvt_ask
          (resolveEffectiveLeverage paradex_lev grvt_lev)
          (inp.paradex_taker_fee.getD officialParadexTakerFee
            + inp.grvt_maker_fee.getD officialGrvtMakerFee),
        inp.paradex_taker_fee.getD officialParadexTakerFee,
        inp.grvt_maker_fee.getD officialGrvtMakerFee,
        inp.zscore, inp.history_samples,
        inp.spread_speed_pct_per_min, inp.spread_volatility_pct, inp.speed_samples⟩
  | _, _, _, _ => .error "invalid_bbo"

/-! ## Concrete instances used to evaluate the development on closed inputs -/

/-- A representative strategy configuration (`min_edge_bps = 5`,
`z_entry = 1.5`). -/
def cfgW : StrategyConfig :=
  ⟨20, 20, 20, 3/2, 1/2, 6/5, 2/5, 5, 1/100, 2/100, 1/10⟩

/-- Metrics with a 2 bps edge but a large z-score. -/
def metricsW : SpreadMetrics := ⟨"BTC-PERP", 0, 0, 2, -3, 2, 0, 0, 0, 3⟩

/-- A valid BBO `(99, 101)` with mid 100. -/
def bboA : BBO := ⟨99, 101⟩

/-- A valid BBO `(99.5, 100.5)`, also with mid 100. -/
def bboB : BBO := ⟨199/2, 201/2⟩

/-- A valid BBO `(100, 100.2)`. -/
def bboC : BBO := ⟨100, 501/5⟩

/-- A valid BBO `(100.5, 100.7)`. -/
def bboD : BBO := ⟨201/2, 1007/10⟩

/-- The position state of scenario S4: `paradex = +0.01`,
`grvt = −0.006`. -/
def posS4 : PositionState := ⟨1/100, -(6/1000), 0, none⟩

/-- The all-zero position state. -/
def posZero : PositionState := {}

/-- A concrete buy fill on Paradex. -/
def fillW : TradeFill := ⟨.PARADEX, "BTC-PERP", .BUY, 3, 100, "id-1", "open-taker"⟩

/-- The position map with every symbol flat. -/
def psW : Positions := fun _ => {}

/-- An execution environment whose limiter always admits and whose adapter
fills every request synchronously. -/
def envW : ExecEnv :=
  ⟨fun _ => true,
   fun req => ⟨true, req.exchange, "oid-1", req.side, req.quantity, req.quantity, none, ""⟩⟩

/-- An OPEN signal with one batch. -/
def signalOpenW : SpreadSignal :=
  ⟨.OPEN, some .LONG_PARA_SHORT_GRVT, 6, 2, 1, "满足动态开仓条件", [1/100]⟩

/-- A drained bucket: rate 2/s, capacity 10, 0 tokens, last refill at 0. -/
def bucketW : TokenBucket := ⟨2, 10, 0, 0⟩

/-- A limiter registry with no bucket registered. -/
def emptyBuckets : Buckets := fun _ => none

/-- A health guard with no venue registered. -/
def emptyGuard : HealthGuard := ⟨3, 5000, []⟩

/-- A scanner pair input that passes every gate: leverages `(50, 100)`,
Paradex book `(100, 100.2)`, GRVT book `(100.5, 100.7)`, fees defaulted. -/
def inpGoodW : PairInput :=
  ⟨"ETH-PERP", some 50, some 100, .ok (some 100, some (501/5)),
    .ok (some (201/2), some (1007/10)), none, none, 0, 0, 0, 0, 0⟩

/-- A scanner pair input with `max_leverage = (20, 100)`, so the effective
leverage 20 is below the 50× floor. -/
def inpLowLevW : PairInput :=
  ⟨"DOGE-PERP", some 20, some 100, .ok (some 1, some 2), .ok (some 1, some 2),
    none, none, 0, 0, 0, 0, 0⟩

/-! ## Theorems -/

/-- Claim C2: for every metrics value and mode, if the absolute signed edge
is strictly below the mode's minimum-edge threshold (`cfg.min_edge_bps` in
normal mode, `0.7·cfg.min_edge_bps` in zero-wear mode), `generate_signal`
returns a HOLD with an empty batch list, regardless of the z-score. -/
theorem C2_min_edge_hold (cfg : StrategyConfig) (metrics : SpreadMetrics)
    (mode : StrategyMode) (h : |metrics.signed_edge_bps| < modeMinEdge cfg mode) :
    (generateSignal cfg metrics mode).action = SignalAction.HOLD ∧
    (generateSignal cfg metrics mode).batches = [] := by
  cases mode <;> simp only [modeMinEdge] at h <;> simp [generateSignal, h]

/-- Witness for C2: a 2 bps edge against a 5 bps threshold holds, even with
z-score 3. -/
theorem C2_min_edge_hold_witness :
    (generateSignal cfgW metricsW StrategyMode.NORMAL_ARB).action = SignalAction.HOLD ∧
    (generateSignal cfgW metricsW StrategyMode.NORMAL_ARB).batches = [] :=
  C2_min_edge_hold cfgW metricsW StrategyMode.NORMAL_ARB
    (by norm_num [cfgW, metricsW, modeMinEdge, abs_of_nonneg])

/-- Claim C3 is false as stated: two valid BBOs with equal mids and a
non-zero common edge make `signed_edge_bps` coincide, not flip sign, when
the venues' roles are swapped. -/
theorem C3_counterexample :
    (bboA.valid ∧ bboB.valid) ∧
    signedEdgeBps bboA bboB ≠ -signedEdgeBps bboB bboA := by
  constructor
  · constructor <;> norm_num [BBO.valid, bboA, bboB]
  · have h1 : signedEdgeBps bboA bboB = -150 := by
      norm_num [signedEdgeBps, edgeParaToGrvtBps, edgeGrvtToParaBps, toBps,
        BBO.mid, bboA, bboB]
    have h2 : signedEdgeBps bboB bboA = -150 := by
      norm_num [signedEdgeBps, edgeParaToGrvtBps, edgeGrvtToParaBps, toBps,
        BBO.mid, bboA, bboB]
    rw [h1, h2]; norm_num

/-- The base mid used by `compute_metrics` is symmetric in the two venues. -/
theorem edgeParaToGrvtBps_swap (A B : BBO) :
    edgeParaToGrvtBps B A = edgeGrvtToParaBps A B := by
  unfold edgeParaToGrvtBps edgeGrvtToParaBps
  rw [add_comm B.mid A.mid]

/-- Swapping the venues exchanges the two directional edges. -/
theorem edgeGrvtToParaBps_swap (A B : BBO) :
    edgeGrvtToParaBps B A = edgeParaToGrvtBps A B := by
  unfold edgeParaToGrvtBps edgeGrvtToParaBps
  rw [add_comm B.mid A.mid]

/-- Claim C3, amended: the signed edge is antisymmetric under swapping the
two venues' roles whenever the two directional bps edges differ (when they
tie — exactly when the two mids coincide — both orientations return the tied
value instead). -/
theorem C3_signed_edge_antisymmetric (A B : BBO)
    (h : edgeParaToGrvtBps A B ≠ edgeGrvtToParaBps A B) :
    signedEdgeBps A B = -signedEdgeBps B A := by
  show (if edgeParaToGrvtBps A B ≥ edgeGrvtToParaBps A B
      then edgeParaToGrvtBps A B else -edgeGrvtToParaBps A B)
    = -(if edgeParaToGrvtBps B A ≥ edgeGrvtToParaBps B A
      then edgeParaToGrvtBps B A else -edgeGrvtToParaBps B A)
  rw [edgeParaToGrvtBps_swap A B, edgeGrvtToParaBps_swap A B]
  split_ifs with h1 h2 h2
  · exact absurd (le_antisymm h2 h1) h
  · rw [neg_neg]
  · rfl
  · exact absurd (le_of_not_le h1) (fun hle => h2 hle)

/-- Witness for the amended C3 on the valid pair `(100, 100.2)` /
`(100.5, 100.7)`. -/
theorem C3_signed_edge_antisymmetric_witness :
    signedEdgeBps bboC bboD = -signedEdgeBps bboD bboC :=
  C3_signed_edge_antisymmetric bboC bboD
    (by norm_num [edgeParaToGrvtBps, edgeGrvtToParaBps, toBps, BBO.mid, bboC, bboD])

/-- Claim C4 names the intended behaviour, but `compute_metrics` never
returns at all: the `SpreadMetrics(...)` call at lines 62-70 omits the three
required price fields of `models.SpreadMetrics`, so every call raises
`TypeError` naming `edge_para_to_grvt_price`, `edge_grvt_to_para_price` and
`signed_edge_price`.  The statistics computed just before the failing
construction do satisfy the claimed properties: below `min_samples` (counted
after the append) the locals are `ma = std = z = 0`, and `std = 0` forces
`z = 0`. -/
theorem C4_compute_metrics_type_error (cfg : StrategyConfig) (sqrtQ : ℚ → ℚ)
    (symbol : String) (ring : List ℚ) (paradex grvt : BBO) :
    (computeMetrics cfg sqrtQ symbol ring paradex grvt).1
      = Except.error
          ["edge_para_to_grvt_price", "edge_grvt_to_para_price", "signed_edge_price"] ∧
    ((computeMetricsStats cfg sqrtQ ring paradex grvt).2.length < cfg.min_samples →
      (computeMetricsStats cfg sqrtQ ring paradex grvt).1.ma_value = 0 ∧
      (computeMetricsStats cfg sqrtQ ring paradex grvt).1.std_value = 0 ∧
      (computeMetricsStats cfg sqrtQ ring paradex grvt).1.zscore = 0) ∧
    ((computeMetricsStats cfg sqrtQ ring paradex grvt).1.std_value = 0 →
      (computeMetricsStats cfg sqrtQ ring paradex grvt).1.zscore = 0) := by
  refine ⟨rfl, ?_, ?_⟩
  · simp only [computeMetricsStats]
    intro hlen
    rw [if_neg (not_le.2 hlen), if_neg (not_le.2 hlen)]
    refine ⟨rfl, rfl, ?_⟩
    simp
  · simp only [computeMetricsStats]
    intro hstd
    rw [hstd]
    simp

/-- Witness for C4: the very first call (empty ring, `min_samples = 20`,
valid books) already raises the `TypeError`, and its locals are the claimed
zeros. -/
theorem C4_compute_metrics_type_error_witness :
    (computeMetrics cfgW id "BTC-PERP" [] bboA bboB).1
      = Except.error
          ["edge_para_to_grvt_price", "edge_grvt_to_para_price", "signed_edge_price"] ∧
    ((computeMetricsStats cfgW id [] bboA bboB).1.ma_value = 0 ∧
     (computeMetricsStats cfgW id [] bboA bboB).1.std_value = 0 ∧
     (computeMetricsStats cfgW id [] bboA bboB).1.zscore = 0) :=
  ⟨(C4_compute_metrics_type_error cfgW id "BTC-PERP" [] bboA bboB).1,
   (C4_compute_metrics_type_error cfgW id "BTC-PERP" [] bboA bboB).2.1
     (by norm_num [computeMetricsStats, pushMaxlen, cfgW])⟩

/-- Net exposure after applying a rebalance order as a fill: the signed
quantity is added to the net. -/
theorem applyRebalanceOrder_net (state : PositionState) (o : RebalanceOrder) :
    (applyRebalanceOrder state o).net_exposure =
      state.net_exposure + (if o.side = TradeSide.BUY then o.quantity else -o.quantity) := by
  unfold applyRebalanceOrder PositionState.net_exposure
  cases o.exchange <;> cases o.side <;> simp <;> ring

/-- Shrinking a positive net by `qty ∈ (0, net]` shrinks its absolute
value. -/
theorem abs_shrink_pos (net qty : ℚ) (h0 : 0 < qty) (h1 : 0 < net) (h2 : qty ≤ net) :
    |net + -qty| < |net| := by
  rw [abs_of_nonneg (by linarith), abs_of_pos h1]; linarith

/-- Shrinking a negative net by `qty ∈ (0, −net]` shrinks its absolute
value. -/
theorem abs_shrink_neg (net qty : ℚ) (h0 : 0 < qty) (h1 : net < 0) (h2 : qty ≤ -net) :
    |net + qty| < |net| := by
  rw [abs_of_nonpos (by linarith), abs_of_neg h1]; linarith

/-- Claim C5 is false as stated: with a negative tolerance a flat book
satisfies `|net_exposure| > tolerance` with `base_qty > 0`, yet the planner
returns no order at all (the planned quantity `min(|net|, base_qty)` is
zero). -/
theorem C5_counterexample :
    |posZero.net_exposure| > (-1 : ℚ) ∧ (0 : ℚ) < 1 ∧
    buildRebalanceOrders posZero (-1) 1 "BTC-PERP" = [] := by
  refine ⟨by norm_num [posZero, PositionState.net_exposure], by norm_num, ?_⟩
  norm_num [buildRebalanceOrders, posZero, PositionState.net_exposure]

/-- Claim C5, amended with the tolerance required non-negative (as every
caller's tolerance is): under `|net_exposure| > tolerance ≥ 0` and
`base_qty > 0` the planner emits exactly one order of quantity
`min(|net|, base_qty)` — a SELL on the leg with the larger signed position
when net is positive, a BUY on the leg with the smaller signed position when
net is negative — and applying it as a fill strictly reduces `|net|`. -/
theorem C5_rebalance_order (state : PositionState) (tolerance base_qty : ℚ)
    (symbol : String) (htol : 0 ≤ tolerance)
    (h : |state.net_exposure| > tolerance) (hb : 0 < base_qty) :
    ∃ o : RebalanceOrder,
      buildRebalanceOrders state tolerance base_qty symbol = [o] ∧
      o.quantity = min |state.net_exposure| base_qty ∧
      (0 < state.net_exposure →
        o.side = TradeSide.SELL ∧ state.leg o.exchange.other ≤ state.leg o.exchange) ∧
      (state.net_exposure < 0 →
        o.side = TradeSide.BUY ∧ state.leg o.exchange ≤ state.leg o.exchange.other) ∧
      |(applyRebalanceOrder state o).net_exposure| < |state.net_exposure| := by
  have habs : 0 < |state.net_exposure| := lt_of_le_of_lt htol h
  have hqty : 0 < min |state.net_exposure| base_qty := lt_min habs hb
  have hqle : min |state.net_exposure| base_qty ≤ |state.net_exposure| := min_le_left _ _
  unfold buildRebalanceOrders
  rw [if_neg (not_le.2 h), if_neg (not_le.2 hqty)]
  by_cases hpos : state.net_exposure > 0
  · rw [if_pos hpos]
    have hqle' : min |state.net_exposure| base_qty ≤ state.net_exposure :=
      (min_le_left _ _).trans_eq (abs_of_pos hpos)
    by_cases hpg : state.paradex ≥ state.grvt
    · rw [if_pos hpg]
      refine ⟨_, rfl, rfl, fun _ => ⟨rfl, ?_⟩, fun hneg => absurd hpos (not_lt.2 hneg.le), ?_⟩
      · simpa [PositionState.leg, ExchangeName.other] using hpg
      · rw [applyRebalanceOrder_net]
        simpa using abs_shrink_pos _ _ hqty hpos hqle'
    · rw [if_neg hpg]
      refine ⟨_, rfl, rfl, fun _ => ⟨rfl, ?_⟩, fun hneg => absurd hpos (not_lt.2 hneg.le), ?_⟩
      · simpa [PositionState.leg, ExchangeName.other] using (not_le.1 hpg).le
      · rw [applyRebalanceOrder_net]
        simpa using abs_shrink_pos _ _ hqty hpos hqle'
  · rw [if_neg hpos]
    have hneg : state.net_exposure < 0 := by
      rcases lt_or_eq_of_le (not_lt.1 hpos) with hlt | heq
      · exact hlt
      · rw [heq] at habs; simp at habs
    have hqle' : min |state.net_exposure| base_qty ≤ -state.net_exposure :=
      (min_le_left _ _).trans_eq (abs_of_neg hneg)
    by_cases hpg : state.paradex ≤ state.grvt
    · rw [if_pos hpg]
      refine ⟨_, rfl, rfl, fun hp => absurd hp (not_lt.2 hneg.le), fun _ => ⟨rfl, ?_⟩, ?_⟩
      · simpa [PositionState.leg, ExchangeName.other] using hpg
      · rw [applyRebalanceOrder_net]
        simpa using abs_shrink_neg _ _ hqty hneg hqle'
    · rw [if_neg hpg]
      refine ⟨_, rfl, rfl, fun hp => absurd hp (not_lt.2 hneg.le), fun _ => ⟨rfl, ?_⟩, ?_⟩
      · simpa [PositionState.leg, ExchangeName.other] using (not_le.1 hpg).le
      · rw [applyRebalanceOrder_net]
        simpa using abs_shrink_neg _ _ hqty hneg hqle'

/-- Witness for the amended C5 on scenario S4: `paradex = +0.01`,
`grvt = −0.006`, `tolerance = 0.001`, `base_qty = 0.002` gives one SELL of
0.002 on Paradex. -/
theorem C5_rebalance_order_witness :
    ∃ o : RebalanceOrder,
      buildRebalanceOrders posS4 (1/1000) (2/1000) "BTC-PERP" = [o] ∧
      o.quantity = min |posS4.net_exposure| (2/1000) ∧
      (0 < posS4.net_exposure →
        o.side = TradeSide.SELL ∧ posS4.leg o.exchange.other ≤ posS4.leg o.exchange) ∧
      (posS4.net_exposure < 0 →
        o.side = TradeSide.BUY ∧ posS4.leg o.exchange ≤ posS4.leg o.exchange.other) ∧
      |(applyRebalanceOrder posS4 o).net_exposure| < |posS4.net_exposure| :=
  C5_rebalance_order posS4 (1/1000) (2/1000) "BTC-PERP" (by norm_num)
    (by rw [show posS4.net_exposure = 4/1000 by norm_num [posS4, PositionState.net_exposure],
          abs_of_nonneg (by norm_num)]
        norm_num)
    (by norm_num)

/-- Claim C6: `apply_fill` adds the signed quantity to the leg of the fill's
venue, leaves the other leg, the target and the active direction of that
symbol untouched, and leaves every other symbol's state untouched (the map
equals a point update at the fill's symbol). -/
theorem C6_apply_fill_frame (ps : Positions) (f : TradeFill) :
    ((applyFill ps f) f.symbol).leg f.exchange
      = (ps f.symbol).leg f.exchange
        + (if f.side = TradeSide.BUY then f.quantity else -f.quantity) ∧
    ((applyFill ps f) f.symbol).leg f.exchange.other
      = (ps f.symbol).leg f.exchange.other ∧
    ((applyFill ps f) f.symbol).target_net = (ps f.symbol).target_net ∧
    ((applyFill ps f) f.symbol).active_direction = (ps f.symbol).active_direction ∧
    applyFill ps f = Function.update ps f.symbol ((applyFill ps f) f.symbol) := by
  refine ⟨?_, ?_, ?_, ?_, ?_⟩
  · cases hex : f.exchange <;> cases hs : f.side <;>
      simp [applyFill, PositionState.leg, ExchangeName.other, hex, hs]
  · cases hex : f.exchange <;>
      simp [applyFill, PositionState.leg, ExchangeName.other, hex]
  · cases hex : f.exchange <;> simp [applyFill, hex]
  · cases hex : f.exchange <;> simp [applyFill, hex]
  · funext sym
    rw [Function.update_apply]
    by_cases hsym : sym = f.symbol
    · subst hsym; simp
    · simp [applyFill, hsym]

/-- `_refill_unlocked` never changes the capacity. -/
theorem refill_capacity (b : TokenBucket) (now : ℚ) :
    (b.refill now).capacity = b.capacity := by
  unfold TokenBucket.refill; split <;> rfl

/-- `_refill_unlocked` never changes the rate. -/
theorem refill_rate (b : TokenBucket) (now : ℚ) :
    (b.refill now).rate_per_sec = b.rate_per_sec := by
  unfold TokenBucket.refill; split <;> rfl

/-- A refill keeps the token count within `[0, capacity]`. -/
theorem refill_inRange (b : TokenBucket) (now : ℚ)
    (hrate : 0 ≤ b.rate_per_sec) (hb : b.inRange) : (b.refill now).inRange := by
  obtain ⟨h0, h1⟩ := hb
  unfold TokenBucket.refill TokenBucket.inRange
  split
  · exact ⟨h0, h1⟩
  · refine ⟨le_min (le_trans h0 h1) ?_, min_le_left _ _⟩
    have : 0 ≤ max 0 (now - b.last_refill_at) := le_max_left _ _
    nlinarith

/-- A `try_acquire` keeps the token count within `[0, capacity]`. -/
theorem tryAcquire_inRange (b : TokenBucket) (tokens now : ℚ)
    (hrate : 0 ≤ b.rate_per_sec) (hb : b.inRange) :
    ((b.tryAcquire tokens now).2).inRange := by
  have hr := refill_inRange b now hrate hb
  unfold TokenBucket.tryAcquire
  by_cases h1 : tokens ≤ 0
  · rw [if_pos h1]; exact hb
  · rw [if_neg h1]
    by_cases h2 : (b.refill now).tokens ≥ tokens
    · rw [if_pos h2]
      refine ⟨?_, ?_⟩
      · show 0 ≤ (b.refill now).tokens - tokens
        linarith
      · show (b.refill now).tokens - tokens ≤ (b.refill now).capacity
        linarith [hr.2, not_le.1 h1]
    · rw [if_neg h2]; exact hr

/-- One iteration of the `acquire` wait loop keeps the token count within
`[0, capacity]` when the request is positive. -/
theorem acquireStep_inRange (b : TokenBucket) (tokens now : ℚ)
    (deadline : Option ℚ) (hn : 0 < tokens)
    (hrate : 0 ≤ b.rate_per_sec) (hb : b.inRange) :
    ((b.acquireStep tokens now deadline).2).inRange := by
  have hr := refill_inRange b now hrate hb
  unfold TokenBucket.acquireStep
  by_cases h2 : (b.refill now).tokens ≥ tokens
  · rw [if_pos h2]
    refine ⟨?_, ?_⟩
    · show 0 ≤ (b.refill now).tokens - tokens
      linarith
    · show (b.refill now).tokens - tokens ≤ (b.refill now).capacity
      linarith [hr.2]
  · rw [if_neg h2]
    cases deadline with
    | none => exact hr
    | some d =>
      dsimp only
      split <;> exact hr

/-- One iteration of the wait loop keeps the rate unchanged. -/
theorem acquireStep_rate (b : TokenBucket) (tokens now : ℚ) (deadline : Option ℚ) :
    ((b.acquireStep tokens now deadline).2).rate_per_sec = b.rate_per_sec := by
  unfold TokenBucket.acquireStep
  by_cases h2 : (b.refill now).tokens ≥ tokens
  · rw [if_pos h2]
    show (b.refill now).rate_per_sec = b.rate_per_sec
    exact refill_rate b now
  · rw [if_neg h2]
    cases deadline with
    | none => exact refill_rate b now
    | some d =>
      dsimp only
      split <;> exact refill_rate b now

/-- The whole `acquire` wait loop keeps the token count within
`[0, capacity]` when the request is positive. -/
theorem acquireLoop_inRange (tokens : ℚ) (deadline : Option ℚ) (hn : 0 < tokens)
    (wake : List ℚ) : ∀ b : TokenBucket, 0 ≤ b.rate_per_sec → b.inRange →
    ((b.acquireLoop tokens deadline wake).2).inRange := by
  induction wake with
  | nil => intro b _ hb; exact hb
  | cons now rest ih =>
    intro b hrate hb
    simp only [TokenBucket.acquireLoop]
    rcases hstep : b.acquireStep tokens now deadline with ⟨r, b'⟩
    have hb' : b'.inRange := by
      have := acquireStep_inRange b tokens now deadline hn hrate hb
      rwa [hstep] at this
    have hrate' : 0 ≤ b'.rate_per_sec := by
      have := acquireStep_rate b tokens now deadline
      rw [hstep] at this
      rwa [this]
    cases r with
    | some v => exact hb'
    | none => exact ih b' hrate' hb'

/-- One refill keeps the refill-accumulation bound relative to a start
instant `t0 ≤ last_refill`: tokens never exceed
`min(capacity, (last_refill − t0) · rate)` plus the initial stock, here with
initial stock zero folded into the bound. -/
theorem refill_bound_step (b : TokenBucket) (u t0 : ℚ)
    (hrate : 0 ≤ b.rate_per_sec) (hlast : t0 ≤ b.last_refill_at)
    (hbound : b.tokens ≤ min b.capacity ((b.last_refill_at - t0) * b.rate_per_sec)) :
    t0 ≤ (b.refill u).last_refill_at ∧
    (b.refill u).last_refill_at ≤ max b.last_refill_at u ∧
    (b.refill u).tokens
      ≤ min b.capacity (((b.refill u).last_refill_at - t0) * b.rate_per_sec) := by
  unfold TokenBucket.refill
  by_cases hc : max 0 (u - b.last_refill_at) ≤ 0
  · rw [if_pos hc]
    exact ⟨hlast, le_max_left _ _, hbound⟩
  · rw [if_neg hc]
    have hlt : b.last_refill_at < u := by
      by_contra hle
      exact hc (max_le le_rfl (by linarith [not_lt.1 hle]))
    refine ⟨by show t0 ≤ u; linarith, le_max_right _ _, ?_⟩
    show min b.capacity (b.tokens + max 0 (u - b.last_refill_at) * b.rate_per_sec)
      ≤ min b.capacity ((u - t0) * b.rate_per_sec)
    rw [max_eq_right (by linarith : (0 : ℚ) ≤ u - b.last_refill_at)]
    have htok : b.tokens ≤ (b.last_refill_at - t0) * b.rate_per_sec :=
      le_trans hbound (min_le_right _ _)
    have hring : (b.last_refill_at - t0) * b.rate_per_sec
        + (u - b.last_refill_at) * b.rate_per_sec = (u - t0) * b.rate_per_sec := by ring
    exact min_le_min le_rfl (by linarith)

/-- Any sequence of refills, each at a clock reading at most `tmax`, keeps
the accumulation bound relative to `t0` and keeps `last_refill` within
`[t0, tmax]`; capacity and rate are untouched. -/
theorem refillMany_bound_aux (t0 tmax : ℚ) :
    ∀ (times : List ℚ) (b : TokenBucket), 0 ≤ b.rate_per_sec →
      t0 ≤ b.last_refill_at → b.last_refill_at ≤ tmax →
      (∀ u ∈ times, u ≤ tmax) →
      b.tokens ≤ min b.capacity ((b.last_refill_at - t0) * b.rate_per_sec) →
      (TokenBucket.refillMany times b).tokens
        ≤ min b.capacity
            (((TokenBucket.refillMany times b).last_refill_at - t0) * b.rate_per_sec) ∧
      t0 ≤ (TokenBucket.refillMany times b).last_refill_at ∧
      (TokenBucket.refillMany times b).last_refill_at ≤ tmax ∧
      (TokenBucket.refillMany times b).capacity = b.capacity ∧
      (TokenBucket.refillMany times b).rate_per_sec = b.rate_per_sec := by
  intro times
  induction times with
  | nil =>
    intro b _ h2 h3 _ h5
    exact ⟨h5, h2, h3, rfl, rfl⟩
  | cons u rest ih =>
    intro b hrate hlast hlastmax htimes hbound
    have hu : u ≤ tmax := htimes u (List.mem_cons_self u rest)
    have hstep := refill_bound_step b u t0 hrate hlast hbound
    have hrest := ih (b.refill u)
      (by rw [refill_rate]; exact hrate)
      hstep.1
      (le_trans hstep.2.1 (max_le hlastmax hu))
      (fun v hv => htimes v (List.mem_cons_of_mem u hv))
      (by rw [refill_capacity, refill_rate]; exact hstep.2.2)
    have hfold : TokenBucket.refillMany (u :: rest) b
        = TokenBucket.refillMany rest (b.refill u) := rfl
    rw [hfold]
    rw [refill_capacity, refill_rate] at hrest
    exact hrest

/-- Claim C7: for a bucket with positive rate and a token count within
`[0, capacity]`, the count stays within `[0, capacity]` after a refill,
after a `try_acquire`, after every iteration of an `acquire` (any result of
the full `acquire`, including the `ValueError` path which leaves the bucket
untouched); and a bucket drained at its last refill instant holds, after any
sequence of non-debiting refills over the following `t ≥ 0` seconds, at most
`min(capacity, t · rate_per_sec)` tokens. -/
theorem C7_bucket_bounds (b : TokenBucket) (tokens now t t0 : ℚ)
    (deadline timeout : Option ℚ) (wake times : List ℚ)
    (hrate : 0 < b.rate_per_sec) (hb : b.inRange) :
    (b.refill now).inRange ∧
    ((b.tryAcquire tokens now).2).inRange ∧
    (0 < tokens → ((b.acquireLoop tokens deadline wake).2).inRange) ∧
    (match b.acquire tokens timeout t0 wake with
     | .ok r => r.2.inRange
     | .error _ => True) ∧
    (b.tokens = 0 → 0 ≤ t → (∀ u ∈ times, u ≤ b.last_refill_at + t) →
      (TokenBucket.refillMany times b).tokens ≤ min b.capacity (t * b.rate_per_sec)) ∧
    (b.tokens = 0 → 0 ≤ t →
      (b.refill (b.last_refill_at + t)).tokens ≤ min b.capacity (t * b.rate_per_sec)) := by
  refine ⟨refill_inRange b now hrate.le hb, tryAcquire_inRange b tokens now hrate.le hb,
    fun hn => acquireLoop_inRange tokens deadline hn wake b hrate.le hb, ?_, ?_, ?_⟩
  · unfold TokenBucket.acquire
    by_cases h1 : tokens ≤ 0
    · rw [if_pos h1]; exact hb
    · rw [if_neg h1]
      by_cases h2 : tokens > b.capacity
      · rw [if_pos h2]; trivial
      · rw [if_neg h2]
        exact acquireLoop_inRange tokens _ (not_le.1 h1) wake b hrate.le hb
  · intro htok ht htimes
    have hcap : 0 ≤ b.capacity := le_trans hb.1 hb.2
    have hmany := refillMany_bound_aux b.last_refill_at (b.last_refill_at + t)
      times b hrate.le le_rfl (by linarith) htimes
      (by rw [htok, sub_self, zero_mul]; exact le_min hcap le_rfl)
    refine le_trans hmany.1 (min_le_min le_rfl ?_)
    have : (TokenBucket.refillMany times b).last_refill_at - b.last_refill_at ≤ t := by
      linarith [hmany.2.2.1]
    nlinarith [hrate.le]
  · intro htok ht
    obtain ⟨h0, h1⟩ := hb
    unfold TokenBucket.refill
    rw [add_sub_cancel_left, max_eq_right ht]
    by_cases ht0 : t ≤ 0
    · rw [if_pos ht0, htok]
      exact le_min (le_trans h0 h1) (by nlinarith)
    · rw [if_neg ht0]
      show min b.capacity (b.tokens + t * b.rate_per_sec) ≤ min b.capacity (t * b.rate_per_sec)
      rw [htok, zero_add]

/-- Witness for C7: a drained bucket (rate 2, capacity 10) after 2 seconds —
also when refilled twice along the way — holds at most `min(10, 4) = 4`
tokens, and refill / try-acquire / the wait loop keep the count within
range. -/
theorem C7_bucket_bounds_witness :
    (bucketW.refill 1).inRange ∧
    ((bucketW.tryAcquire 1 1).2).inRange ∧
    ((bucketW.acquireLoop 1 none [1]).2).inRange ∧
    (TokenBucket.refillMany [1, 2] bucketW).tokens
      ≤ min bucketW.capacity (2 * bucketW.rate_per_sec) ∧
    (bucketW.refill (bucketW.last_refill_at + 2)).tokens
      ≤ min bucketW.capacity (2 * bucketW.rate_per_sec) := by
  have h := C7_bucket_bounds bucketW 1 1 2 0 none none [1] [1, 2]
    (by norm_num [bucketW]) (by norm_num [bucketW, TokenBucket.inRange])
  refine ⟨h.1, h.2.1, h.2.2.1 (by norm_num), ?_, h.2.2.2.2.2 (by norm_num [bucketW]) (by norm_num)⟩
  refine h.2.2.2.2.1 (by norm_num [bucketW]) (by norm_num) ?_
  intro u hu
  rcases List.mem_cons.1 hu with h1 | h1
  · rw [h1]; norm_num [bucketW]
  · rcases List.mem_cons.1 h1 with h2 | h2
    · rw [h2]; norm_num [bucketW]
    · exact absurd h2 (List.not_mem_nil u)

/-- Claim C9 is false as stated: with no venue registered `can_open()`
returns `False`, while "every registered venue is healthy" holds
vacuously. -/
theorem C9_counterexample :
    ¬(emptyGuard.canOpen = true ↔
      ∀ p ∈ emptyGuard.items,
        p.2.fail_count < emptyGuard.fail_threshold ∧ p.2.ok = true) := by
  simp [emptyGuard, HealthGuard.canOpen]

/-- Claim C9, amended: `can_open()` returns true iff at least one venue is
registered and every registered venue has `fail_count` strictly below the
threshold and reported ok on its most recent check. -/
theorem C9_can_open_iff (g : HealthGuard) :
    g.canOpen = true ↔
      g.items ≠ [] ∧ ∀ p ∈ g.items,
        p.2.fail_count < g.fail_threshold ∧ p.2.ok = true := by
  unfold HealthGuard.canOpen
  by_cases h : g.items.isEmpty
  · simp [h, List.isEmpty_iff.1 h]
  · have hne : g.items ≠ [] := by simpa [List.isEmpty_iff] using h
    simp [h, hne, List.all_eq_true]

/-- Claim C10: an order or market-data call on a `(exchange, scope)` key with
no registered bucket is admitted immediately — `acquire` succeeds for any
token count and timeout even with no wakeups consumed, `try_acquire`
succeeds, and the registry (hence every bucket) is unchanged. -/
theorem C10_unregistered (m : Buckets) (exchange scope : String) (tokens : ℚ)
    (timeout : Option ℚ) (t0 now : ℚ) (wake : List ℚ)
    (h : m (exchange, scope) = none) :
    limiterAcquire m exchange scope tokens timeout t0 wake = .ok (some true, m) ∧
    limiterTryAcquire m exchange scope tokens now = (true, m) := by
  unfold limiterAcquire limiterTryAcquire
  rw [h]
  exact ⟨rfl, rfl⟩

/-- Witness for C10: the empty registry admits an order-scope call at once. -/
theorem C10_unregistered_witness :
    limiterAcquire emptyBuckets "paradex" "order" 1 (some (8/10)) 0 [] =
      .ok (some true, emptyBuckets) ∧
    limiterTryAcquire emptyBuckets "paradex" "order" 1 3 = (true, emptyBuckets) :=
  C10_unregistered emptyBuckets "paradex" "order" 1 (some (8/10)) 0 3 [] rfl

/-- Claim C1: with `live_order_enabled = false`, an OPEN or CLOSE signal
through `execute_signal`, any `execute_rebalance`, and any `flatten_symbol`
all return a report with zero attempted, successful and failed orders, reach
no adapter (`place_order` list empty) and leave every position state
unchanged. -/
theorem C1_live_order_gate (env : ExecEnv) (cfg : StrategyConfig) (ps : Positions)
    (symbol : String) (signal : SpreadSignal)
    (paradex_bid paradex_ask grvt_bid grvt_ask : ℚ) (can_open : Bool)
    (orders : List OrderRequest)
    (h : signal.action = SignalAction.OPEN ∨ signal.action = SignalAction.CLOSE) :
    ((executeSignal env false cfg ps symbol signal paradex_bid paradex_ask
        grvt_bid grvt_ask can_open).1.attempted_orders = 0 ∧
     (executeSignal env false cfg ps symbol signal paradex_bid paradex_ask
        grvt_bid grvt_ask can_open).1.success_orders = 0 ∧
     (executeSignal env false cfg ps symbol signal paradex_bid paradex_ask
        grvt_bid grvt_ask can_open).1.failed_orders = 0 ∧
     (executeSignal env false cfg ps symbol signal paradex_bid paradex_ask
        grvt_bid grvt_ask can_open).2.1 = [] ∧
     (executeSignal env false cfg ps symbol signal paradex_bid paradex_ask
        grvt_bid grvt_ask can_open).2.2 = ps) ∧
    ((executeRebalance env false ps symbol orders).1.attempted_orders = 0 ∧
     (executeRebalance env false ps symbol orders).1.success_orders = 0 ∧
     (executeRebalance env false ps symbol orders).1.failed_orders = 0 ∧
     (executeRebalance env false ps symbol orders).2.1 = [] ∧
     (executeRebalance env false ps symbol orders).2.2 = ps) ∧
    ((flattenSymbol env false ps symbol).1.attempted_orders = 0 ∧
     (flattenSymbol env false ps symbol).1.success_orders = 0 ∧
     (flattenSymbol env false ps symbol).1.failed_orders = 0 ∧
     (flattenSymbol env false ps symbol).2.1 = [] ∧
     (flattenSymbol env false ps symbol).2.2 = ps) := by
  refine ⟨?_, ?_, ?_⟩
  · unfold executeSignal
    rw [if_pos ⟨h, by simp⟩]
    exact ⟨rfl, rfl, rfl, rfl, rfl⟩
  · unfold executeRebalance
    rw [if_pos (by simp)]
    exact ⟨rfl, rfl, rfl, rfl, rfl⟩
  · unfold flattenSymbol
    rw [if_pos (by simp)]
    exact ⟨rfl, rfl, rfl, rfl, rfl⟩

/-- Witness for C1: a concrete OPEN signal against a live adapter oracle is
blocked when live orders are disabled. -/
theorem C1_live_order_gate_witness :
    ((executeSignal envW false cfgW psW "BTC-PERP" signalOpenW 100 (501/5)
        (201/2) (1007/10) true).1.attempted_orders = 0 ∧
     (executeSignal envW false cfgW psW "BTC-PERP" signalOpenW 100 (501/5)
        (201/2) (1007/10) true).1.success_orders = 0 ∧
     (executeSignal envW false cfgW psW "BTC-PERP" signalOpenW 100 (501/5)
        (201/2) (1007/10) true).1.failed_orders = 0 ∧
     (executeSignal envW false cfgW psW "BTC-PERP" signalOpenW 100 (501/5)
        (201/2) (1007/10) true).2.1 = [] ∧
     (executeSignal envW false cfgW psW "BTC-PERP" signalOpenW 100 (501/5)
        (201/2) (1007/10) true).2.2 = psW) ∧
    ((executeRebalance envW false psW "BTC-PERP" []).1.attempted_orders = 0 ∧
     (executeRebalance envW false psW "BTC-PERP" []).1.success_orders = 0 ∧
     (executeRebalance envW false psW "BTC-PERP" []).1.failed_orders = 0 ∧
     (executeRebalance envW false psW "BTC-PERP" []).2.1 = [] ∧
     (executeRebalance envW false psW "BTC-PERP" []).2.2 = psW) ∧
    ((flattenSymbol envW false psW "BTC-PERP").1.attempted_orders = 0 ∧
     (flattenSymbol envW false psW "BTC-PERP").1.success_orders = 0 ∧
     (flattenSymbol envW false psW "BTC-PERP").1.failed_orders = 0 ∧
     (flattenSymbol envW false psW "BTC-PERP").2.1 = [] ∧
     (flattenSymbol envW false psW "BTC-PERP").2.2 = psW) :=
  C1_live_order_gate envW cfgW psW "BTC-PERP" signalOpenW 100 (501/5) (201/2)
    (1007/10) true [] (Or.inl rfl)

/-- Claim C8: every row `_fetch_pair_row` produces satisfies
`net_nominal_spread > 0`, `effective_leverage ≥ 50` and
`tradable_edge_price > 0`; a pair whose effective leverage is below 50 is
skipped as `effective_leverage_below_50x`, one whose tradable edge is not
positive as `edge_not_positive`, and one whose fee-adjusted net spread is
not positive as `net_spread_not_positive`. -/
theorem C8_scanner_row_invariant (inp : PairInput) :
    (match fetchPairRow inp with
     | .ok row => row.net_nominal_spread > 0 ∧ row.effective_leverage ≥ 50 ∧
         row.tradable_edge_price > 0
     | .error _ => True) ∧
    (∀ p g, inp.paradex_max_leverage = some p → inp.grvt_max_leverage = some g →
      resolveEffectiveLeverage p g < 50 →
      fetchPairRow inp = .error "effective_leverage_below_50x") ∧
    (∀ p g pb pa gb ga,
      inp.paradex_max_leverage = some p → inp.grvt_max_leverage = some g →
      ¬ resolveEffectiveLeverage p g < 50 →
      inp.paradex_depth = .ok (some pb, some pa) →
      inp.grvt_depth = .ok (some gb, some ga) →
      ¬ invalidScannerBbo pb pa gb ga →
      (tradableEdgePrice pb pa gb ga ≤ 0 →
        fetchPairRow inp = .error "edge_not_positive") ∧
      (¬ tradableEdgePrice pb pa gb ga ≤ 0 →
        netNominalSpread pb pa gb ga (resolveEffectiveLeverage p g)
          (inp.paradex_taker_fee.getD officialParadexTakerFee
            + inp.grvt_maker_fee.getD officialGrvtMakerFee) ≤ 0 →
        fetchPairRow inp = .error "net_spread_not_positive")) := by
  refine ⟨?_, ?_, ?_⟩
  · obtain ⟨sym, plev?, glev?, pdep, gdep, pfee, gfee, z, hsamp, sp, vol, ss⟩ := inp
    cases plev? with
    | none => simp [fetchPairRow]
    | some p =>
    cases glev? with
    | none => simp [fetchPairRow]
    | some g =>
    by_cases hl : resolveEffectiveLeverage p g < 50
    · simp [fetchPairRow, hl]
    · rcases pdep with e | ⟨pb?, pa?⟩
      · simp [fetchPairRow, hl]
      · rcases gdep with e | ⟨gb?, ga?⟩
        · simp [fetchPairRow, hl]
        · rcases pb? with _ | pb <;> rcases pa? with _ | pa <;>
            rcases gb? with _ | gb <;> rcases ga? with _ | ga
          all_goals try (simp [fetchPairRow, hl]; done)
          by_cases hbbo : invalidScannerBbo pb pa gb ga
          · simp [fetchPairRow, hl, hbbo]
          · by_cases hedge : tradableEdgePrice pb pa gb ga ≤ 0
            · simp [fetchPairRow, hl, hbbo, hedge]
            · by_cases hnet : netNominalSpread pb pa gb ga
                  (resolveEffectiveLeverage p g)
                  (pfee.getD officialParadexTakerFee
                    + gfee.getD officialGrvtMakerFee) ≤ 0
              · simp [fetchPairRow, hl, hbbo, hedge, hnet]
              · simp only [fetchPairRow, if_neg hl, if_neg hbbo, if_neg hedge, if_neg hnet]
                exact ⟨lt_of_not_le hnet, not_lt.1 hl, lt_of_not_le hedge⟩
  · intro p g hp hg hl
    unfold fetchPairRow
    rw [hp, hg]
    simp [hl]
  · intro p g pb pa gb ga hp hg hnl hpd hgd hbbo
    unfold fetchPairRow
    rw [hp, hg, hpd, hgd]
    refine ⟨fun hedge => ?_, fun hedge hnet => ?_⟩
    · simp [hnl, hbbo, hedge]
    · simp [hnl, hbbo, hedge, hnet]

/-- Witness for C8: the pair `(leverage 50/100, Paradex (100, 100.2), GRVT
(100.5, 100.7), official fees)` produces a row and so satisfies the
invariant, and the pair with leverages `(20, 100)` is skipped as below the
50× floor. -/
theorem C8_scanner_row_invariant_witness :
    (match fetchPairRow inpGoodW with
     | .ok row => row.net_nominal_spread > 0 ∧ row.effective_leverage ≥ 50 ∧
         row.tradable_edge_price > 0
     | .error _ => True) ∧
    fetchPairRow inpLowLevW = .error "effective_leverage_below_50x" :=
  ⟨(C8_scanner_row_invariant inpGoodW).1,
   (C8_scanner_row_invariant inpLowLevW).2.1 20 100 rfl rfl
     (by norm_num [resolveEffectiveLeverage, sanitizeLeverage])⟩

end Arbbot
